import Mathlib

/-!
Verification of the real-time state transport layer of the
everything-presence-addons repository (WebSocket read transport, REST
polling read transport, transport factory, and the live fan-out
WebSocket server), shallowly embedded from the compiled JavaScript
sources under backend/dist.
-/

/-- A Home Assistant entity state snapshot, as delivered by the
`/api/states` REST endpoint or the WebSocket `get_states` command.
Attributes are modelled as a string-keyed association list. -/
structure HAState where
  entity_id : String
  state : String
  attributes : List (String × String)
  last_changed : String
  last_updated : String
deriving DecidableEq, Repr

/-- Lookup in an association list keyed by entity id, mirroring
JavaScript `Map.get`. -/
def lookupState (m : List (String × HAState)) (k : String) : Option HAState :=
  (m.find? (fun p => p.1 == k)).map (fun p => p.2)

/-- Insert or replace in an association list keyed by entity id,
mirroring JavaScript `Map.set`. -/
def insertState (m : List (String × HAState)) (k : String) (v : HAState) :
    List (String × HAState) :=
  (k, v) :: m.filter (fun p => p.1 != k)

/-- `RestReadTransport.stateChanged` (restReadTransport.js): a record
counts as changed when the state value string differs or the
`last_updated` timestamp differs.  The `last_changed` field is not
consulted. -/
def stateChanged (oldState newState : HAState) : Bool :=
  oldState.state != newState.state || oldState.last_updated != newState.last_updated

/-- A polling subscription of `RestReadTransport`: an id, an entity-id
filter (empty means all entities), and the per-subscription map of last
known states.  The callback itself is modelled separately as a
throw-behaviour function so that subscriptions stay decidably
comparable. -/
structure RestSubscription where
  id : String
  entityIds : List String
  lastStates : List (String × HAState)
deriving DecidableEq, Repr

/-- The states of a poll tick relevant to one subscription
(restReadTransport.js `pollStates`): every fetched state when the
filter is empty, otherwise only those whose entity id is in the
filter. -/
def relevantStates (sub : RestSubscription) (states : List HAState) : List HAState :=
  if sub.entityIds.isEmpty then states
  else states.filter (fun s => sub.entityIds.contains s.entity_id)

/-- One poll tick for one subscription, embedded from the inner loop of
`RestReadTransport.pollStates`.  `behav sid eid = true` means the
subscription callback throws on that invocation; the throw is caught
and logged by the source, so it only contributes to the error log.
Returns the list of callback invocations `(entityId, newState,
oldState or none)`, the list of logged callback errors, and the updated
`lastStates` map (updated unconditionally after each record). -/
def pollLoop (behav : String → String → Bool) (sid : String)
    (acc : List (String × HAState × Option HAState) × List String × List (String × HAState)) :
    List HAState →
      List (String × HAState × Option HAState) × List String × List (String × HAState)
  | [] => acc
  | ns :: rest =>
    let old := lookupState acc.2.2 ns.entity_id
    let fires := match old with
      | none => true
      | some o => stateChanged o ns
    let invoked := if fires then acc.1 ++ [(ns.entity_id, ns, old)] else acc.1
    let errors := if fires && behav sid ns.entity_id then acc.2.1 ++ [sid] else acc.2.1
    pollLoop behav sid (invoked, errors, insertState acc.2.2 ns.entity_id ns) rest

/-- One poll tick for one subscription: run the loop over the states
relevant to it, starting from empty invocation and error logs and the
current `lastStates` map. -/
def pollOne (behav : String → String → Bool) (sub : RestSubscription)
    (states : List HAState) :
    List (String × HAState × Option HAState) × List String × List (String × HAState) :=
  pollLoop behav sub.id ([], [], sub.lastStates) (relevantStates sub states)

/-- A callback behaviour that never throws. -/
def noThrow : String → String → Bool := fun _ _ => false

/-- A WebSocket subscription of `WsReadTransport`: an id plus an
entity-id filter (empty means match every entity). -/
structure WsSubscription where
  id : String
  entityIds : List String
deriving DecidableEq, Repr

/-- The mutable fields of `WsReadTransport` relevant to connection
handling: the connected flag, the upstream-subscribed flag, the local
subscription set, the pending correlation-id table, the correlation-id
counter, and whether a reconnect timer is currently scheduled. -/
structure WsState where
  isConnected : Bool
  stateSubscriptionActive : Bool
  subscriptions : List WsSubscription
  pending : List Nat
  nextId : Nat
  reconnectScheduled : Bool
deriving DecidableEq, Repr

/-- Constructor state of `WsReadTransport`: `nextId` starts at 1,
tables empty, all flags down. -/
def initWsState : WsState :=
  { isConnected := false
    stateSubscriptionActive := false
    subscriptions := []
    pending := []
    nextId := 1
    reconnectScheduled := false }

/-- Observable effects of the `WsReadTransport` message and close
handlers: sending the auth reply, rejecting or resolving the pending
`connect()` promise, sending a correlated command, rejecting a pending
request with an error message, closing the socket, and scheduling the
5-second reconnect timer. -/
inductive WsEffect where
  | sendAuth
  | rejectConnectAuth (message : String)
  | resolveConnect
  | sendCommand (id : Nat) (cmdType : String)
  | rejectPending (id : Nat) (message : String)
  | closeSocket
  | scheduleReconnect
deriving DecidableEq, Repr

/-- The `auth_required` branch of the message handler in
`WsReadTransport.connect`: reply with the auth token, no state
change. -/
def handleAuthRequired (s : WsState) : WsState × List WsEffect :=
  (s, [WsEffect.sendAuth])

/-- The `auth_invalid` branch of the message handler in
`WsReadTransport.connect`: close the socket and reject both the ready
promise and the connect promise with an auth error.  The state fields
themselves are untouched here; the socket close fires the close
handler afterwards. -/
def handleAuthInvalid (s : WsState) (message : String) : WsState × List WsEffect :=
  (s, [WsEffect.closeSocket, WsEffect.rejectConnectAuth ("Auth invalid: " ++ message)])

/-- The `auth_ok` branch of the message handler in
`WsReadTransport.connect`: mark connected, resolve the connect
promise, and, when any local subscription exists, run
`activateStateSubscription`, which (unless the upstream-subscribed
flag is already set) issues the `subscribe_events` command via `call`,
registering a fresh correlation id.  The upstream-subscribed flag is
only set once the command completes, which is outside this
transition. -/
def handleAuthOk (s : WsState) : WsState × List WsEffect :=
  let s1 := { s with isConnected := true }
  if !s1.subscriptions.isEmpty && !s1.stateSubscriptionActive then
    ({ s1 with nextId := s1.nextId + 1, pending := s1.pending ++ [s1.nextId] },
     [WsEffect.resolveConnect, WsEffect.sendCommand s1.nextId "subscribe_events"])
  else (s1, [WsEffect.resolveConnect])

/-- The pending-response branch of the message handler: a message
carrying an id present in the pending table resolves that entry and
removes it. -/
def handleResult (s : WsState) (id : Nat) : WsState × List WsEffect :=
  if s.pending.contains id then
    ({ s with pending := s.pending.filter (fun p => p != id) }, [])
  else (s, [])

/-- The close handler of `WsReadTransport.connect`: drop the connected
flag and the upstream-subscribed flag, reject every pending request
with a connection-closed error, empty the pending table, and schedule
the reconnect timer.  The correlation-id counter `nextId` and the
subscription map are untouched. -/
def handleClose (s : WsState) : WsState × List WsEffect :=
  ({ s with isConnected := false
            stateSubscriptionActive := false
            pending := []
            reconnectScheduled := true },
   s.pending.map (fun id => WsEffect.rejectPending id "WebSocket connection closed")
     ++ [WsEffect.scheduleReconnect])

/-- `WsReadTransport.call` after readiness: assign the current
`nextId` as correlation id, increment the counter, register the
pending entry, and send the command. -/
def wsCall (s : WsState) (cmdType : String) : WsState × List WsEffect :=
  ({ s with nextId := s.nextId + 1, pending := s.pending ++ [s.nextId] },
   [WsEffect.sendCommand s.nextId cmdType])

/-- `WsReadTransport.handleStateChanged` delivery: every subscription
whose filter is empty or contains the changed entity id has its
callback invoked; a throwing callback (`behav sid eid = true`) is
caught and logged and the loop continues.  Returns for each invoked
subscription its id and whether its callback threw. -/
def dispatchStateChanged (behav : String → String → Bool)
    (subs : List WsSubscription) (entityId : String) : List (String × Bool) :=
  subs.filterMap (fun sub =>
    if sub.entityIds.isEmpty || sub.entityIds.contains entityId then
      some (sub.id, behav sub.id entityId)
    else none)

/-- The `state_changed` event branch of the message handler: dispatch
to the matching subscriptions; the transport state fields are not
modified by `handleStateChanged`. -/
def handleStateChangedM (behav : String → String → Bool) (s : WsState)
    (entityId : String) : WsState × List (String × Bool) :=
  (s, dispatchStateChanged behav s.subscriptions entityId)

/-- The shared body of `WsReadTransport.getStates` and
`RestReadTransport.getStates`: iterate over the full upstream state
list and keep exactly the records whose entity id is in the requested
set, keyed by entity id (later records overwrite earlier ones, as with
JavaScript `Map.set`). -/
def getStatesLoop (result : List (String × HAState)) :
    List HAState → List String → List (String × HAState)
  | [], _ => result
  | st :: rest, entityIds =>
    getStatesLoop
      (if entityIds.contains st.entity_id then insertState result st.entity_id st
       else result)
      rest entityIds

/-- The shared body of `WsReadTransport.getStates` and
`RestReadTransport.getStates`, entry point: start from an empty
map. -/
def getStatesFrom (allStates : List HAState) (entityIds : List String) :
    List (String × HAState) :=
  getStatesLoop [] allStates entityIds

/-- Outcome of one `call` on the WebSocket channel as observed by the
awaiting caller: the resolved response message (whether it is a
`result`, its success flag, and its optional payload of states), a
10-second request timeout, or rejection because the connection
closed. -/
inductive WsCallOutcome where
  | response (isResult : Bool) (success : Bool) (result : Option (List HAState))
  | timeout
  | closed
deriving Repr

/-- `WsReadTransport.getAllStates`: issue `get_states`; on a
successful result return its payload (or an empty list when absent),
on any other response log and return an empty list, and propagate a
rejection of `call` (timeout or connection closed) as an
exception. -/
def wsGetAllStates : WsCallOutcome → Except String (List HAState)
  | WsCallOutcome.response isResult success result =>
    if isResult && success then Except.ok (result.getD []) else Except.ok []
  | WsCallOutcome.timeout => Except.error "WS request timed out"
  | WsCallOutcome.closed => Except.error "WebSocket connection closed"

/-- `WsReadTransport.getStates`: fetch all states and filter to the
requested ids; a rejection of the underlying call propagates. -/
def wsGetStates (o : WsCallOutcome) (entityIds : List String) :
    Except String (List (String × HAState)) :=
  (wsGetAllStates o).map (fun allStates => getStatesFrom allStates entityIds)

/-- `WsReadTransport.getState`: the bulk result for the single id,
`null` when absent; a rejection of the underlying call propagates. -/
def wsGetState (o : WsCallOutcome) (entityId : String) :
    Except String (Option HAState) :=
  (wsGetStates o [entityId]).map (fun m => lookupState m entityId)

/-- Outcome of the single-entity REST fetch issued by
`RestReadTransport.getState` against `/api/states/<entityId>`. -/
inductive FetchOutcome where
  | ok (st : HAState)
  | notFound
  | httpError (status : Nat) (body : String)
  | networkError (message : String)
deriving Repr

/-- `RestReadTransport.getState`: return the parsed record on success;
return `null` on HTTP 404; any other non-ok status raises inside the
`try` block and is caught, and a network error is caught likewise, so
both also yield `null`.  The function never raises. -/
def restGetState : FetchOutcome → Option HAState
  | FetchOutcome.ok st => some st
  | FetchOutcome.notFound => none
  | FetchOutcome.httpError _ _ => none
  | FetchOutcome.networkError _ => none

/-- Outcome of a transport `connect()` attempt (for the WebSocket
attempt this includes losing the race against the factory timeout). -/
inductive ConnectOutcome where
  | success
  | failure (message : String)
deriving DecidableEq, Repr

/-- The record returned by `createReadTransport`
(transportFactory.js). -/
structure TransportSelection where
  activeTransport : String
  wsAvailable : Bool
  restAvailable : Bool
deriving DecidableEq, Repr

/-- `createReadTransport` (transportFactory.js), with the I/O outcomes
as parameters: `wsConnect` is the outcome of racing
`WsReadTransport.connect()` against the factory timeout, `restProbe`
the best-effort REST reachability probe run after a WebSocket success,
and `restConnect` the outcome of `RestReadTransport.connect()`.
Returns the selection record together with a flag recording whether
the failed WebSocket attempt was torn down via `disconnect()`; throws
when both attempts fail. -/
def createReadTransport (forceRest preferWebSocket : Bool)
    (wsConnect : ConnectOutcome) (restProbe : Bool)
    (restConnect : ConnectOutcome) :
    Except String (TransportSelection × Bool) :=
  if preferWebSocket && !forceRest then
    match wsConnect with
    | ConnectOutcome.success =>
      Except.ok ({ activeTransport := "websocket", wsAvailable := true,
                   restAvailable := restProbe }, false)
    | ConnectOutcome.failure _ =>
      match restConnect with
      | ConnectOutcome.success =>
        Except.ok ({ activeTransport := "rest", wsAvailable := false,
                     restAvailable := true }, true)
      | ConnectOutcome.failure _ =>
        Except.error "Failed to connect to Home Assistant via WebSocket or REST"
  else
    match restConnect with
    | ConnectOutcome.success =>
      Except.ok ({ activeTransport := "rest", wsAvailable := false,
                   restAvailable := true }, false)
    | ConnectOutcome.failure _ =>
      Except.error "Failed to connect to Home Assistant via WebSocket or REST"

/-- One entry of the `clients` map of the live fan-out WebSocket
server (liveWs.js): keyed by the downstream socket (modelled by
`sessKey`), holding the device and profile ids, the resolved
entity-interest set, and the generated subscription id. -/
structure StoredSub where
  sessKey : String
  deviceId : String
  profileId : String
  entityIds : List String
  subscriptionId : String
deriving DecidableEq, Repr

/-- The upstream change-event broadcast callback of
`createLiveWebSocketServer`: ignore events with a missing entity id or
a missing new state; otherwise send a `state_update` to every client
whose interest set contains the changed entity id and whose socket is
open.  `isOpen` models each downstream socket readyState.  Returns the
clients the message is sent to, in map order. -/
def broadcastStateUpdate (clients : List StoredSub) (isOpen : String → Bool)
    (entityId : String) (newState : Option HAState) : List StoredSub :=
  if entityId == "" || newState.isNone then []
  else clients.filter (fun c => c.entityIds.contains entityId && isOpen c.sessKey)

/-- The downstream messages sent by the fan-out server session
handler. -/
inductive OutMsg where
  | errorMsg (error : String)
  | warningMsg (code : String) (message : String) (deviceId : String)
  | subscribedMsg (deviceId : String) (profileId : String)
      (entities : List String)
      (initialStates : Option (List (String × HAState))) (hasMappings : Bool)
deriving DecidableEq, Repr

/-- The first replace of the device-name fallback in the subscribe
handler: strip a leading `sensor.`, `binary_sensor.` or `number.`
domain from the device id. -/
def stripDomain (s : String) : String :=
  if s.startsWith "binary_sensor." then s.drop 14
  else if s.startsWith "sensor." then s.drop 7
  else if s.startsWith "number." then s.drop 7
  else s

/-- The second replace of the device-name fallback: strip a trailing
`_occupancy` or `_mmwave_target_distance`. -/
def stripSensorSuffix (s : String) : String :=
  if s.endsWith "_occupancy" then s.dropRight 10
  else if s.endsWith "_mmwave_target_distance" then s.dropRight 23
  else s

/-- `clients.set(ws, ...)` in the subscribe handler: store the session
entry, replacing any previous entry under the same socket key. -/
def registerClient (clients : List StoredSub) (sessKey deviceId profileId : String)
    (resolved : List String) (subId : String) : List StoredSub :=
  { sessKey := sessKey, deviceId := deviceId, profileId := profileId,
    entityIds := resolved, subscriptionId := subId }
    :: clients.filter (fun c => c.sessKey != sessKey)

/-- Outcome of the immediate bulk fetch `readTransport.getStates` run
inside the subscribe handler. -/
inductive BulkFetchOutcome where
  | ok (states : List (String × HAState))
  | failed (message : String)
deriving Repr

/-- The `subscribe` branch of the fan-out server message handler
(liveWs.js): validate the request (`deviceId` and `profileId` present,
profile found, derivable device name), emit a `MAPPING_NOT_FOUND`
warning when neither a device-level mapping nor legacy mappings exist,
register the session with its resolved entity set, and then send the
`subscribed` confirmation — with the fetched `initialStates` when the
bulk fetch succeeds, and without the `initialStates` field when it
throws (the registration is kept either way).  The entity-resolution
block itself is an external collaborator here, so the resolved set is
a parameter.  Returns the updated client map and the messages sent to
this session. -/
def handleSubscribe (clients : List StoredSub) (sessKey : String)
    (deviceId profileId : String) (profileFound : Bool) (hint : String)
    (hasMappings : Bool) (resolved : List String) (subId : String)
    (fetch : BulkFetchOutcome) : List StoredSub × List OutMsg :=
  if deviceId == "" || profileId == "" then
    (clients, [OutMsg.errorMsg "deviceId and profileId required"])
  else if !profileFound then
    (clients, [OutMsg.errorMsg "Profile not found"])
  else
    let deviceName := if hint != "" then hint
      else stripSensorSuffix (stripDomain deviceId)
    if deviceName == "" then
      (clients, [OutMsg.errorMsg "Could not determine entity name prefix"])
    else
      let warnings := if hasMappings then []
        else [OutMsg.warningMsg "MAPPING_NOT_FOUND"
          "No entity mappings found for this device. Run entity discovery to auto-match entities."
          deviceId]
      let clients1 := registerClient clients sessKey deviceId profileId resolved subId
      match fetch with
      | BulkFetchOutcome.ok states =>
        (clients1, warnings ++ [OutMsg.subscribedMsg deviceId profileId resolved
          (some states) hasMappings])
      | BulkFetchOutcome.failed _ =>
        (clients1, warnings ++ [OutMsg.subscribedMsg deviceId profileId resolved
          none hasMappings])

/-- Concrete records used by the witnesses below: a last-known record
for a kitchen occupancy sensor. -/
def pollOldRecord : HAState :=
  { entity_id := "sensor.kitchen_occupancy", state := "on", attributes := [],
    last_changed := "2026-01-01T00:00:00+00:00",
    last_updated := "2026-01-01T00:00:10+00:00" }

/-- The same record with only `last_changed` advanced. -/
def pollNewChangedOnly : HAState :=
  { pollOldRecord with last_changed := "2026-01-01T00:00:20+00:00" }

/-- The same record with `last_updated` advanced (value unchanged). -/
def pollNewUpdatedOnly : HAState :=
  { pollOldRecord with last_updated := "2026-01-01T00:00:20+00:00" }

/-- A polling subscription that already holds `pollOldRecord` as the
last-known record for the kitchen sensor. -/
def pollSubKitchen : RestSubscription :=
  { id := "sub-poll", entityIds := ["sensor.kitchen_occupancy"],
    lastStates := [("sensor.kitchen_occupancy", pollOldRecord)] }

/-- A WebSocket subscription with an empty filter (match all). -/
def wsSubAll : WsSubscription := { id := "fanout-sub", entityIds := [] }

/-- A connected WebSocket transport state holding one subscription,
one pending request and an advanced correlation counter. -/
def wsStateBusy : WsState :=
  { isConnected := true, stateSubscriptionActive := true,
    subscriptions := [wsSubAll], pending := [2], nextId := 3,
    reconnectScheduled := false }

/-- A fan-out session for device `abc` with profile `epl`, resolved to
two concrete entities. -/
def fanoutSess : StoredSub :=
  { sessKey := "ws-1", deviceId := "abc", profileId := "epl",
    entityIds := ["binary_sensor.abc_occupancy", "sensor.abc_target_1_x"],
    subscriptionId := "abc-1700000000000" }

/-- A concrete upstream state for one of the resolved entities. -/
def fanoutState : HAState :=
  { entity_id := "sensor.abc_target_1_x", state := "123", attributes := [],
    last_changed := "2026-01-01T00:00:00+00:00",
    last_updated := "2026-01-01T00:00:00+00:00" }

theorem lookupState_insert_self (m : List (String × HAState)) (k : String) (v : HAState) :
    lookupState (insertState m k v) k = some v := by
  simp [lookupState, insertState, List.find?]

theorem find_filter_ne (m : List (String × HAState)) (k k' : String) (h : k' ≠ k) :
    (m.filter (fun p => p.1 != k)).find? (fun p => p.1 == k')
      = m.find? (fun p => p.1 == k') := by
  induction m with
  | nil => rfl
  | cons p rest ih =>
    by_cases hk : p.1 = k
    · have h1 : (p.1 != k) = false := by simp [hk]
      have h2 : (p.1 == k') = false := by
        simp [hk]
        exact fun hcv => h hcv.symm
      simp [List.filter, List.find?, h1, h2, ih]
    · have h1 : (p.1 != k) = true := by simp [hk]
      by_cases hk' : p.1 = k'
      · have h2 : (p.1 == k') = true := by simp [hk']
        simp [List.filter, List.find?, h1, h2]
      · have h2 : (p.1 == k') = false := by simp [hk']
        simp [List.filter, List.find?, h1, h2, ih]

theorem lookupState_insert_ne (m : List (String × HAState)) (k k' : String)
    (v : HAState) (h : k' ≠ k) :
    lookupState (insertState m k v) k' = lookupState m k' := by
  have h2 : (k == k') = false := by
    simp
    exact fun hcv => h hcv.symm
  simp [lookupState, insertState, List.find?, h2, find_filter_ne m k k' h]

theorem lookup_getStatesLoop_isSome (entityIds : List String) (k : String) :
    ∀ (l : List HAState) (acc : List (String × HAState)),
      (lookupState (getStatesLoop acc l entityIds) k).isSome
        ↔ (lookupState acc k).isSome
          ∨ (k ∈ entityIds ∧ ∃ st ∈ l, st.entity_id = k) := by
  intro l
  induction l with
  | nil => intro acc; simp [getStatesLoop]
  | cons st rest ih =>
    intro acc
    by_cases hc : entityIds.contains st.entity_id
    · by_cases hk : st.entity_id = k
      · have hmem : k ∈ entityIds := by
          rw [← hk]
          simpa using hc
        rw [getStatesLoop, if_pos hc]
        rw [ih]
        rw [hk, lookupState_insert_self]
        simp [hmem, hk]
      · rw [getStatesLoop, if_pos hc]
        rw [ih]
        rw [lookupState_insert_ne _ _ _ _ (fun h => hk h.symm)]
        constructor
        · rintro (h | ⟨h1, st', h2, h3⟩)
          · exact Or.inl h
          · exact Or.inr ⟨h1, st', List.mem_cons_of_mem _ h2, h3⟩
        · rintro (h | ⟨h1, st', h2, h3⟩)
          · exact Or.inl h
          · rcases List.mem_cons.mp h2 with he | he
            · exact absurd (he ▸ h3) hk
            · exact Or.inr ⟨h1, st', he, h3⟩
    · rw [getStatesLoop, if_neg hc]
      rw [ih]
      constructor
      · rintro (h | ⟨h1, st', h2, h3⟩)
        · exact Or.inl h
        · exact Or.inr ⟨h1, st', List.mem_cons_of_mem _ h2, h3⟩
      · rintro (h | ⟨h1, st', h2, h3⟩)
        · exact Or.inl h
        · rcases List.mem_cons.mp h2 with he | he
          · subst he
            rw [← h3] at h1
            exact absurd (by simpa using h1) hc
          · exact Or.inr ⟨h1, st', he, h3⟩

theorem mem_getStatesLoop (entityIds : List String) :
    ∀ (l : List HAState) (acc : List (String × HAState))
      (p : String × HAState), p ∈ getStatesLoop acc l entityIds →
      p ∈ acc ∨ (p.2 ∈ l ∧ p.1 = p.2.entity_id) := by
  intro l
  induction l with
  | nil => intro acc p hp; exact Or.inl hp
  | cons st rest ih =>
    intro acc p hp
    by_cases hc : entityIds.contains st.entity_id
    · rw [getStatesLoop, if_pos hc] at hp
      rcases ih _ p hp with h | ⟨h1, h2⟩
      · rcases List.mem_cons.mp h with he | hmem
        · subst he
          exact Or.inr ⟨List.mem_cons_self _ _, rfl⟩
        · exact Or.inl (List.mem_filter.mp hmem).1
      · exact Or.inr ⟨List.mem_cons_of_mem _ h1, h2⟩
    · rw [getStatesLoop, if_neg hc] at hp
      rcases ih _ p hp with h | ⟨h1, h2⟩
      · exact Or.inl h
      · exact Or.inr ⟨List.mem_cons_of_mem _ h1, h2⟩

theorem lookup_getStatesFrom_none (l : List HAState) (entityIds : List String)
    (k : String) (h : ∀ st ∈ l, st.entity_id ≠ k) :
    lookupState (getStatesFrom l entityIds) k = none := by
  have hs := lookup_getStatesLoop_isSome entityIds k l []
  rw [getStatesFrom]
  cases ho : lookupState (getStatesLoop [] l entityIds) k with
  | none => rfl
  | some v =>
    rw [ho] at hs
    simp [lookupState] at hs
    rcases hs with ⟨_, st, hmem, hid⟩
    exact absurd hid (h st hmem)

theorem pollLoop_indep (behav behav2 : String → String → Bool) (sid sid2 : String) :
    ∀ (l : List HAState)
      (inv : List (String × HAState × Option HAState))
      (err err2 : List String) (last : List (String × HAState)),
      (pollLoop behav sid (inv, err, last) l).1
        = (pollLoop behav2 sid2 (inv, err2, last) l).1
      ∧ (pollLoop behav sid (inv, err, last) l).2.2
        = (pollLoop behav2 sid2 (inv, err2, last) l).2.2 := by
  intro l
  induction l with
  | nil => intro inv err err2 last; exact ⟨rfl, rfl⟩
  | cons ns rest ih =>
    intro inv err err2 last
    rw [pollLoop, pollLoop]
    exact ih _ _ _ _

/-- C1 counterexample: a poll tick where only the `last_changed`
timestamp differs (state value and `last_updated` unchanged) produces
zero callbacks, not one — `RestReadTransport.stateChanged` compares
the `last_updated` timestamp, not `last_changed`. -/
theorem c1_counterexample :
    (pollOne noThrow pollSubKitchen [pollNewChangedOnly]).1 = []
  ∧ pollOldRecord.state = pollNewChangedOnly.state
  ∧ pollOldRecord.last_changed ≠ pollNewChangedOnly.last_changed := by
  refine ⟨?_, rfl, by decide⟩
  rfl

/-- C1 (amended): for a polling subscription holding a last-known
record for entity X, a poll tick fires the callback for X exactly when
the new record differs in the state value string or in the
`last_updated` timestamp (with the previous record passed along), and
a second tick fetching the identical record again produces zero
callbacks. -/
theorem c1_poll_two_field_diff (sub : RestSubscription) (old nw : HAState)
    (hlast : lookupState sub.lastStates nw.entity_id = some old)
    (hrel : relevantStates sub [nw] = [nw]) :
    (pollOne noThrow sub [nw]).1
      = (if old.state != nw.state || old.last_updated != nw.last_updated
         then [(nw.entity_id, nw, some old)] else [])
  ∧ (pollOne noThrow { sub with lastStates := (pollOne noThrow sub [nw]).2.2 }
      [nw]).1 = [] := by
  have hstep : pollOne noThrow sub [nw]
      = (if stateChanged old nw then [(nw.entity_id, nw, some old)] else [],
         [], insertState sub.lastStates nw.entity_id nw) := by
    rw [pollOne, hrel]
    simp only [pollLoop, hlast, noThrow, Bool.and_false]
    cases hc : stateChanged old nw <;> simp [hc]
  have hrel2 : relevantStates
      { sub with lastStates := (pollOne noThrow sub [nw]).2.2 } [nw] = [nw] := hrel
  constructor
  · rw [hstep]
    rfl
  · rw [pollOne, hrel2]
    have hlast2 : ({ sub with lastStates := (pollOne noThrow sub [nw]).2.2 }
        : RestSubscription).lastStates = insertState sub.lastStates nw.entity_id nw := by
      rw [hstep]
    rw [hlast2]
    simp only [pollLoop, lookupState_insert_self]
    simp [stateChanged]

/-- C1 witness: the amended theorem applied to a concrete subscription
and a record where only `last_updated` advanced. -/
theorem c1_poll_two_field_diff_witness :
    (pollOne noThrow pollSubKitchen [pollNewUpdatedOnly]).1
      = (if pollOldRecord.state != pollNewUpdatedOnly.state
            || pollOldRecord.last_updated != pollNewUpdatedOnly.last_updated
         then [(pollNewUpdatedOnly.entity_id, pollNewUpdatedOnly, some pollOldRecord)]
         else [])
  ∧ (pollOne noThrow
      { pollSubKitchen with
          lastStates := (pollOne noThrow pollSubKitchen [pollNewUpdatedOnly]).2.2 }
      [pollNewUpdatedOnly]).1 = [] :=
  c1_poll_two_field_diff pollSubKitchen pollOldRecord pollNewUpdatedOnly (by rfl) (by rfl)

/-- C2 counterexample: the close handler does not reset the
correlation-id counter — starting from a state whose counter has
advanced to 5, the counter is still 5 after the close, not the
constructor value 1. -/
theorem c2_counterexample :
    (handleClose { initWsState with nextId := 5, pending := [3] }).1.nextId = 5
  ∧ initWsState.nextId = 1 ∧ (5 : Nat) ≠ 1 :=
  ⟨rfl, rfl, by decide⟩

/-- C2 (amended): when the channel closes, every registered pending
request is failed with the connection-closed error and the pending
table is emptied, but the correlation-id counter is NOT reset: it
keeps its value, so ids keep increasing monotonically across
reconnects within the lifetime of the transport instance (each
`call` uses the current counter value and increments it). -/
theorem c2_close_fails_pending (s : WsState) (cmdType : String) :
    (handleClose s).1.pending = []
  ∧ (∀ id, id ∈ s.pending →
      WsEffect.rejectPending id "WebSocket connection closed" ∈ (handleClose s).2)
  ∧ (handleClose s).1.nextId = s.nextId
  ∧ (wsCall s cmdType).1.nextId = s.nextId + 1
  ∧ WsEffect.sendCommand s.nextId cmdType ∈ (wsCall s cmdType).2 := by
  refine ⟨rfl, ?_, rfl, rfl, by simp [wsCall]⟩
  intro id hid
  simp only [handleClose, List.mem_append, List.mem_map]
  exact Or.inl ⟨id, hid, rfl⟩

/-- C2 witness: the amended theorem applied to a concrete busy
state. -/
theorem c2_close_fails_pending_witness :
    (handleClose wsStateBusy).1.pending = []
  ∧ (∀ id, id ∈ wsStateBusy.pending →
      WsEffect.rejectPending id "WebSocket connection closed" ∈ (handleClose wsStateBusy).2)
  ∧ (handleClose wsStateBusy).1.nextId = wsStateBusy.nextId
  ∧ (wsCall wsStateBusy "get_states").1.nextId = wsStateBusy.nextId + 1
  ∧ WsEffect.sendCommand wsStateBusy.nextId "get_states" ∈ (wsCall wsStateBusy "get_states").2 :=
  c2_close_fails_pending wsStateBusy "get_states"

/-- C3 counterexample: after an invalid-credential acknowledgment the
socket is closed, and the resulting close event still schedules a
reconnect attempt — the auth failure is not fatal for reconnection. -/
theorem c3_counterexample :
    WsEffect.rejectConnectAuth "Auth invalid: Invalid access token"
      ∈ (handleAuthInvalid initWsState "Invalid access token").2
  ∧ (handleClose (handleAuthInvalid initWsState "Invalid access token").1).1.reconnectScheduled
      = true
  ∧ WsEffect.scheduleReconnect
      ∈ (handleClose (handleAuthInvalid initWsState "Invalid access token").1).2 := by
  refine ⟨by decide, rfl, by decide⟩

/-- C3 (amended): on an invalid-credential acknowledgment the connect
promise is rejected with the auth error and the socket is closed, but
the transport does not treat the auth failure as fatal: the close
handler fired by that socket close schedules a reconnect attempt
(after the fixed 5-second delay) like any other close. -/
theorem c3_auth_invalid_rejects_then_reconnects (s : WsState) (message : String) :
    (handleAuthInvalid s message).2
      = [WsEffect.closeSocket, WsEffect.rejectConnectAuth ("Auth invalid: " ++ message)]
  ∧ (handleClose (handleAuthInvalid s message).1).1.reconnectScheduled = true
  ∧ WsEffect.scheduleReconnect ∈ (handleClose (handleAuthInvalid s message).1).2 := by
  refine ⟨rfl, rfl, ?_⟩
  simp [handleClose, handleAuthInvalid]

/-- C4: a subscription registered before a disconnect survives the
close (the close handler leaves the subscription map untouched), and
on reconnect success (auth_ok with a nonempty subscription map and the
upstream-subscribed flag cleared by the close) the upstream
`subscribe_events` command is reissued automatically. -/
theorem c4_resubscribe_after_reconnect (s : WsState) (sub : WsSubscription)
    (hsub : sub ∈ s.subscriptions) :
    sub ∈ (handleAuthOk (handleClose s).1).1.subscriptions
  ∧ (∃ id, WsEffect.sendCommand id "subscribe_events"
      ∈ (handleAuthOk (handleClose s).1).2)
  ∧ (handleAuthOk (handleClose s).1).1.isConnected = true := by
  have hne : s.subscriptions.isEmpty = false := by
    cases h : s.subscriptions with
    | nil => rw [h] at hsub; cases hsub
    | cons a l => rfl
  have hclose : (handleClose s).1.subscriptions = s.subscriptions := rfl
  have hact : (handleClose s).1.stateSubscriptionActive = false := rfl
  constructor
  · simp only [handleAuthOk, hclose, hact, hne]
    simp [hsub]
  constructor
  · refine ⟨(handleClose s).1.nextId, ?_⟩
    simp only [handleAuthOk, hclose, hact, hne]
    simp
  · simp only [handleAuthOk, hclose, hact, hne]
    simp

/-- C4 witness: the theorem applied to a busy transport state holding
one subscription. -/
theorem c4_resubscribe_after_reconnect_witness :
    wsSubAll ∈ (handleAuthOk (handleClose wsStateBusy).1).1.subscriptions
  ∧ (∃ id, WsEffect.sendCommand id "subscribe_events"
      ∈ (handleAuthOk (handleClose wsStateBusy).1).2)
  ∧ (handleAuthOk (handleClose wsStateBusy).1).1.isConnected = true :=
  c4_resubscribe_after_reconnect wsStateBusy wsSubAll (by decide)

/-- C5: with streaming preferred (and not forced to REST), a failed
WebSocket attempt is torn down and the factory falls back to REST,
reporting the polling transport as active with wsAvailable=false and
restAvailable=true; if the REST connect also fails, the factory
throws, so initialization never completes with zero working
transport. -/
theorem c5_fallback_selection (wsMessage restMessage : String) (restProbe : Bool) :
    createReadTransport false true (ConnectOutcome.failure wsMessage) restProbe
        ConnectOutcome.success
      = Except.ok ({ activeTransport := "rest", wsAvailable := false,
                     restAvailable := true }, true)
  ∧ createReadTransport false true (ConnectOutcome.failure wsMessage) restProbe
        (ConnectOutcome.failure restMessage)
      = Except.error "Failed to connect to Home Assistant via WebSocket or REST" :=
  ⟨rfl, rfl⟩

/-- C6: the bulk state fetch shared by both transports returns a map
holding exactly the requested ids that exist in the upstream state
list — an id is present in the result precisely when it was requested
and some upstream record carries it — and every returned record is
keyed by its own entity id and comes from the upstream list; missing
ids are simply absent, never an error (the function is total). -/
theorem c6_bulk_fetch_exact_subset (allStates : List HAState)
    (entityIds : List String) (k : String) :
    ((lookupState (getStatesFrom allStates entityIds) k).isSome
      ↔ (k ∈ entityIds ∧ ∃ st ∈ allStates, st.entity_id = k))
  ∧ (∀ v, lookupState (getStatesFrom allStates entityIds) k = some v →
      v.entity_id = k ∧ v ∈ allStates) := by
  constructor
  · rw [getStatesFrom, lookup_getStatesLoop_isSome entityIds k allStates []]
    simp [lookupState]
  · intro v hv
    rw [getStatesFrom] at hv
    simp only [lookupState, Option.map_eq_some'] at hv
    rcases hv with ⟨p, hfind, hp2⟩
    have hpred := List.find?_some hfind
    simp only [beq_iff_eq] at hpred
    have hmem : p ∈ getStatesLoop [] allStates entityIds :=
      List.mem_of_find?_eq_some hfind
    rcases mem_getStatesLoop entityIds allStates [] p hmem with h | ⟨h1, h2⟩
    · cases h
    · subst hp2
      refine ⟨?_, h1⟩
      rw [← h2]
      exact hpred

/-- C7: callback failures are isolated on both dispatch paths.  For
the streaming dispatch, `handleStateChanged` leaves the transport
state untouched and invokes exactly the subscriptions whose filter is
empty or contains the changed entity, whatever each callback does
(throwing callbacks included).  For the polling dispatch, the set of
callback invocations and the resulting last-known-state map are
identical under any two callback throw behaviours. -/
theorem c7_callback_isolation (behav behav2 : String → String → Bool)
    (s : WsState) (entityId : String) (sub : RestSubscription)
    (states : List HAState) :
    (handleStateChangedM behav s entityId).1 = s
  ∧ ((handleStateChangedM behav s entityId).2.map Prod.fst
      = (s.subscriptions.filter
          (fun q => q.entityIds.isEmpty || q.entityIds.contains entityId)).map
            WsSubscription.id)
  ∧ (pollOne behav sub states).1 = (pollOne behav2 sub states).1
  ∧ (pollOne behav sub states).2.2 = (pollOne behav2 sub states).2.2 := by
  refine ⟨rfl, ?_, ?_, ?_⟩
  · simp only [handleStateChangedM, dispatchStateChanged]
    induction s.subscriptions with
    | nil => rfl
    | cons q rest ih =>
      simp only [List.filterMap_cons, List.filter_cons]
      cases hq : (q.entityIds.isEmpty || q.entityIds.contains entityId) with
      | true => simpa using ih
      | false => simpa using ih
  · rw [pollOne, pollOne]
    exact (pollLoop_indep behav behav2 sub.id sub.id _ _ _ _ _).1
  · rw [pollOne, pollOne]
    exact (pollLoop_indep behav behav2 sub.id sub.id _ _ _ _ _).2

/-- C8: on an upstream change event with a present new state, an
admitted fan-out session with an open socket is sent the
`state_update` exactly when the changed entity id is in its resolved
interest filter; a change outside the filter is never forwarded to
that session. -/
theorem c8_fanout_respects_filter (clients : List StoredSub) (sess : StoredSub)
    (isOpen : String → Bool) (entityId : String) (st : HAState)
    (hmem : sess ∈ clients) (hopen : isOpen sess.sessKey = true)
    (hid : entityId ≠ "") :
    sess ∈ broadcastStateUpdate clients isOpen entityId (some st)
      ↔ entityId ∈ sess.entityIds := by
  have hbeq : (entityId == "") = false := by
    rw [beq_eq_false_iff_ne]
    exact hid
  rw [broadcastStateUpdate, hbeq]
  simp [List.mem_filter, hmem, hopen]

/-- C8 witness: the spec scenario — a session for device abc resolving
to two entities receives a change to sensor.abc_target_1_x, and (by
the same theorem) a change to the unrelated sensor.xyz_temp is not
delivered to it. -/
theorem c8_fanout_respects_filter_witness :
    fanoutSess ∈ broadcastStateUpdate [fanoutSess] (fun _ => true)
      "sensor.abc_target_1_x" (some fanoutState)
  ∧ ¬ fanoutSess ∈ broadcastStateUpdate [fanoutSess] (fun _ => true)
      "sensor.xyz_temp" (some fanoutState) :=
  ⟨(c8_fanout_respects_filter [fanoutSess] fanoutSess (fun _ => true)
      "sensor.abc_target_1_x" fanoutState (by decide) rfl (by decide)).mpr (by decide),
   fun h => by
    have := (c8_fanout_respects_filter [fanoutSess] fanoutSess (fun _ => true)
      "sensor.xyz_temp" fanoutState (by decide) rfl (by decide)).mp h
    revert this
    decide⟩

/-- C9 counterexample: `WsReadTransport.getState` is not raise-free —
when the underlying WebSocket request times out, the exception
propagates out of `getState`. -/
theorem c9_counterexample :
    wsGetState WsCallOutcome.timeout "sensor.kitchen_occupancy"
      = Except.error "WS request timed out" := rfl

/-- C9 (amended): `RestReadTransport.getState` never raises — it
returns null on HTTP 404, on any other HTTP error status and on any
network error — and `WsReadTransport.getState` returns null when the
entity id is absent from the bulk response; but the WebSocket variant
propagates request-level failures (timeout, connection closed) rather
than returning null. -/
theorem c9_get_state_null_on_missing (status : Nat) (body message : String)
    (isResult success : Bool) (payload : List HAState) (k : String)
    (habsent : ∀ st ∈ payload, st.entity_id ≠ k) :
    restGetState FetchOutcome.notFound = none
  ∧ restGetState (FetchOutcome.httpError status body) = none
  ∧ restGetState (FetchOutcome.networkError message) = none
  ∧ wsGetState (WsCallOutcome.response isResult success (some payload)) k
      = Except.ok none := by
  refine ⟨rfl, rfl, rfl, ?_⟩
  rw [wsGetState, wsGetStates, wsGetAllStates]
  cases hir : (isResult && success) with
  | true =>
    simp [Except.map, lookup_getStatesFrom_none payload [k] k habsent]
  | false =>
    simp [Except.map, lookup_getStatesFrom_none [] [k] k (by intro st h; cases h)]

/-- C9 witness: the amended theorem applied with a concrete failed
REST fetch and a successful WebSocket bulk response missing the
queried id. -/
theorem c9_get_state_null_on_missing_witness :
    restGetState FetchOutcome.notFound = none
  ∧ restGetState (FetchOutcome.httpError 500 "server error") = none
  ∧ restGetState (FetchOutcome.networkError "fetch failed") = none
  ∧ wsGetState (WsCallOutcome.response true true (some [fanoutState]))
      "sensor.kitchen_occupancy" = Except.ok none :=
  c9_get_state_null_on_missing 500 "server error" "fetch failed" true true
    [fanoutState] "sensor.kitchen_occupancy" (by decide)

/-- C10: a validated fan-out subscribe request whose immediate bulk
state fetch throws still leaves the session registered with its
resolved interest set, and the session still receives the `subscribed`
confirmation listing the resolved entities with the `initialStates`
field omitted (`none`), not empty. -/
theorem c10_subscribed_without_initial_states (clients : List StoredSub)
    (sessKey deviceId profileId hint : String) (hasMappings : Bool)
    (resolved : List String) (subId errMessage : String)
    (hdev : deviceId ≠ "") (hprof : profileId ≠ "")
    (hname : (if hint != "" then hint
              else stripSensorSuffix (stripDomain deviceId)) ≠ "") :
    (∃ c, c ∈ (handleSubscribe clients sessKey deviceId profileId true hint
        hasMappings resolved subId (BulkFetchOutcome.failed errMessage)).1
      ∧ c.sessKey = sessKey ∧ c.entityIds = resolved)
  ∧ OutMsg.subscribedMsg deviceId profileId resolved none hasMappings
      ∈ (handleSubscribe clients sessKey deviceId profileId true hint
          hasMappings resolved subId (BulkFetchOutcome.failed errMessage)).2 := by
  have h1 : (deviceId == "") = false := by rw [beq_eq_false_iff_ne]; exact hdev
  have h2 : (profileId == "") = false := by rw [beq_eq_false_iff_ne]; exact hprof
  have h3 : ((if hint != "" then hint
              else stripSensorSuffix (stripDomain deviceId)) == "") = false := by
    rw [beq_eq_false_iff_ne]; exact hname
  constructor
  · refine ⟨{ sessKey := sessKey, deviceId := deviceId, profileId := profileId,
              entityIds := resolved, subscriptionId := subId }, ?_, rfl, rfl⟩
    simp only [handleSubscribe, h1, h2, h3, Bool.or_self, Bool.false_or,
      Bool.not_true, if_false, registerClient]
    simp
  · simp only [handleSubscribe, h1, h2, h3, Bool.or_self, Bool.false_or,
      Bool.not_true, if_false]
    simp

/-- C10 witness: the theorem applied to a concrete request for device
abc with profile epl whose bulk fetch fails. -/
theorem c10_subscribed_without_initial_states_witness :
    (∃ c, c ∈ (handleSubscribe [] "ws-1" "abc" "epl" true ""
        true ["binary_sensor.abc_occupancy", "sensor.abc_target_1_x"]
        "abc-1700000000000" (BulkFetchOutcome.failed "bulk fetch failed")).1
      ∧ c.sessKey = "ws-1"
      ∧ c.entityIds = ["binary_sensor.abc_occupancy", "sensor.abc_target_1_x"])
  ∧ OutMsg.subscribedMsg "abc" "epl"
      ["binary_sensor.abc_occupancy", "sensor.abc_target_1_x"] none true
      ∈ (handleSubscribe [] "ws-1" "abc" "epl" true ""
          true ["binary_sensor.abc_occupancy", "sensor.abc_target_1_x"]
          "abc-1700000000000" (BulkFetchOutcome.failed "bulk fetch failed")).2 :=
  c10_subscribed_without_initial_states [] "ws-1" "abc" "epl" "" true
    ["binary_sensor.abc_occupancy", "sensor.abc_target_1_x"]
    "abc-1700000000000" "bulk fetch failed" (by decide) (by decide) (by decide)
